import Mathlib

/-!
Shallow embedding of PySciPlotTK (pysciplottk/easyplotter.py,
pysciplottk/formatting.py, pysciplottk/sizes.py) and proofs about it.

Python exceptions are modelled by an explicit error type; fallible code
returns Except.  Real-valued quantities (figure dimensions, font sizes,
line widths, dpi) are modelled as rationals, since every numeric literal
in the source is rational.  Process-wide matplotlib configuration
(matplotlib.rcParams) is modelled as an explicit record threaded through
the operations that write it.
-/

namespace PySciPlotTK

/-- Python exception kinds that the embedded code can surface.
valueError models ValueError (raised by tuple unpacking of a list whose
length is not the number of targets); keyError models KeyError (raised by
dict lookup and by the registry scans, which raise with an explicit
message); nameError models NameError/UnboundLocalError (use of an unbound
name); attributeError models AttributeError (attribute access on an
object, including None, that lacks it).  noFigureError is the dedicated
error postulated by the specification for save-before-figure; it is part
of the error vocabulary so that its absence from the code's behaviour is
expressible, and no embedded function produces it (the corresponding name
occurs nowhere in the source). -/
inductive PyError where
  | valueError (msg : String)
  | keyError (msg : String)
  | nameError (msg : String)
  | attributeError (msg : String)
  | noFigureError
  deriving DecidableEq, Repr

/-- Split a list of characters at every occurrence of the separator,
keeping empty pieces, as Python str.split with an explicit single-character
separator does. -/
def splitChars (c : Char) : List Char → List (List Char)
  | [] => [[]]
  | x :: xs =>
    let r := splitChars c xs
    if x = c then [] :: r
    else
      match r with
      | [] => [[x]]
      | y :: ys => (x :: y) :: ys

/-- Embedding of Python s.split(sep) for a single-character separator:
always returns at least one piece, empty pieces are kept. -/
def pySplit (s : String) (c : Char) : List String :=
  (splitChars c s.data).map String.mk

/-- Embedding of Python tuple unpacking a, b = l for a list l: succeeds
exactly when l has two elements, otherwise raises ValueError. -/
def unpack2 (l : List String) : Except PyError (String × String) :=
  match l with
  | [a, b] => .ok (a, b)
  | [] => .error (.valueError "not enough values to unpack")
  | [_] => .error (.valueError "not enough values to unpack")
  | _ => .error (.valueError "too many values to unpack")

/-- Embedding of Python dict lookup d[k] for the string-keyed rational
dicts of sizes.py: KeyError when the key is absent. -/
def dictGet (d : List (String × ℚ)) (k : String) : Except PyError ℚ :=
  match d.find? (fun kv => kv.1 = k) with
  | some kv => .ok kv.2
  | none => .error (.keyError k)

/-- Embedding of a SizesBase subclass of pysciplottk/sizes.py: the class
attributes of SizesRevtex / SizesA0poster.  The fontsize, titlesize and
linewidth dicts are association lists in source order. -/
structure Sizes where
  size_name : String
  normal_figure_width : ℚ
  normal_figure_default_height : ℚ
  wide_figure_width : ℚ
  wide_figure_default_height : ℚ
  fontsize : List (String × ℚ)
  titlesize : List (String × ℚ)
  linewidth : List (String × ℚ)

/-- Embedding of SizesBase.intensive_properties: returns
(fontsize[format_name], titlesize[format_name], linewidth[format_name]),
propagating the first KeyError. -/
def Sizes.intensive_properties (s : Sizes) (format_name : String) :
    Except PyError (ℚ × ℚ × ℚ) :=
  match dictGet s.fontsize format_name with
  | .error e => .error e
  | .ok f =>
    match dictGet s.titlesize format_name with
    | .error e => .error e
    | .ok t =>
      match dictGet s.linewidth format_name with
      | .error e => .error e
      | .ok l => .ok (f, t, l)

/-- Embedding of class SizesRevtex of pysciplottk/sizes.py. -/
def SizesRevtex : Sizes :=
  { size_name := "revtex"
    normal_figure_width := 243/72
    normal_figure_default_height := 2
    wide_figure_width := 482/72
    wide_figure_default_height := 4
    fontsize := [("matlab", 7), ("latex", 8)]
    titlesize := [("matlab", 8), ("latex", 9)]
    linewidth := [("matlab", 0.4), ("latex", 0.4)] }

/-- Embedding of class SizesA0poster of pysciplottk/sizes.py. -/
def SizesA0poster : Sizes :=
  { size_name := "a0poster"
    normal_figure_width := 700/72
    normal_figure_default_height := 500/72
    wide_figure_width := 1400/72
    wide_figure_default_height := 500/72
    fontsize := [("matlab", 14), ("latex", 16)]
    titlesize := [("matlab", 16), ("latex", 18)]
    linewidth := [("matlab", 1), ("latex", 1)] }

/-- The size classes found by the inspect.getmembers scan of
pysciplottk/sizes.py: all module members that are strict subclasses of
SizesBase, in the alphabetical order inspect.getmembers yields
(SizesA0poster before SizesRevtex). -/
def sizeRegistry : List Sizes := [SizesA0poster, SizesRevtex]

/-- Embedding of the scan loop of get_size_class: return the first class
whose size_name attribute equals the requested name, else raise KeyError
with the source's message. -/
def scanSizes : List Sizes → String → Except PyError Sizes
  | [], size_name => .error (.keyError ("size_name " ++ size_name ++ " not found"))
  | s :: rest, size_name =>
    if s.size_name = size_name then .ok s else scanSizes rest size_name

/-- Embedding of get_size_class of pysciplottk/sizes.py. -/
def get_size_class (size_name : String) : Except PyError Sizes :=
  scanSizes sizeRegistry size_name

/-- The matplotlib.rcParams entries written by pysciplottk/formatting.py,
modelled as an explicit record (the process-wide configuration). -/
structure RcParams where
  lines_linewidth : ℚ
  patch_linewidth : ℚ
  axes_linewidth : ℚ
  axes_titlesize : ℚ
  grid_linewidth : ℚ
  font_size : ℚ
  font_family : String
  xtick_major_width : ℚ
  xtick_minor_width : ℚ
  text_usetex : Bool
  font_serif : List String
  font_monospace : List String
  deriving DecidableEq, Repr

/-- Embedding of a FormattingBase subclass of pysciplottk/formatting.py:
a name together with its set_matplotlib_global_parameters method, which
reads the intensive properties of a size profile and writes the global
configuration (or propagates the KeyError of the dict lookups). -/
structure Formatting where
  format_name : String
  set_matplotlib_global_parameters : Sizes → RcParams → Except PyError RcParams

/-- Embedding of class FormattingLatex of pysciplottk/formatting.py:
writes the rcParams entries in source order. -/
def FormattingLatex : Formatting :=
  { format_name := "latex"
    set_matplotlib_global_parameters := fun sizes rc =>
      match sizes.intensive_properties "latex" with
      | .error e => .error e
      | .ok (fontsize, titlesize, linewidth) =>
        let rc := { rc with lines_linewidth := linewidth }
        let rc := { rc with patch_linewidth := linewidth }
        let rc := { rc with axes_linewidth := linewidth }
        let rc := { rc with axes_titlesize := titlesize }
        let rc := { rc with grid_linewidth := linewidth }
        let rc := { rc with font_size := fontsize }
        let rc := { rc with font_family := "serif" }
        let rc := { rc with xtick_major_width := linewidth }
        let rc := { rc with xtick_minor_width := linewidth }
        let rc := { rc with text_usetex := true }
        let rc := { rc with font_serif := ["Computer Modern Roman"] }
        let rc := { rc with font_monospace := ["Computer Modern Typewriter"] }
        .ok rc }

/-- Embedding of class FormattingMatlab of pysciplottk/formatting.py:
writes the rcParams entries in source order; the source assigns
axes.titlesize twice, first to fontsize and then to titlesize, and the
sequential updates here reproduce that. -/
def FormattingMatlab : Formatting :=
  { format_name := "matlab"
    set_matplotlib_global_parameters := fun sizes rc =>
      match sizes.intensive_properties "matlab" with
      | .error e => .error e
      | .ok (fontsize, titlesize, linewidth) =>
        let rc := { rc with lines_linewidth := linewidth }
        let rc := { rc with patch_linewidth := linewidth }
        let rc := { rc with axes_linewidth := linewidth }
        let rc := { rc with axes_titlesize := fontsize }
        let rc := { rc with grid_linewidth := linewidth }
        let rc := { rc with font_size := fontsize }
        let rc := { rc with axes_titlesize := titlesize }
        .ok rc }

/-- The formatting classes found by the inspect.getmembers scan of
pysciplottk/formatting.py: all strict subclasses of FormattingBase, in
alphabetical order (FormattingLatex before FormattingMatlab). -/
def formattingRegistry : List Formatting := [FormattingLatex, FormattingMatlab]

/-- Embedding of the scan loop of get_formatting_class: return the first
class whose format_name attribute equals the requested name, else raise
KeyError with the source's message. -/
def scanFormatting : List Formatting → String → Except PyError Formatting
  | [], format_name => .error (.keyError ("format_name " ++ format_name ++ " not found"))
  | f :: rest, format_name =>
    if f.format_name = format_name then .ok f else scanFormatting rest format_name

/-- Embedding of get_formatting_class of pysciplottk/formatting.py. -/
def get_formatting_class (format_name : String) : Except PyError Formatting :=
  scanFormatting formattingRegistry format_name

/-- A matplotlib Figure as this code observes it: the figsize passed at
creation (width, height in inches). -/
structure Figure where
  width : ℚ
  height : ℚ
  deriving DecidableEq, Repr

/-- A matplotlib Axes as this code observes it: the figure it belongs to
and the subplot specification it was added with. -/
structure Axes where
  figure : Figure
  subplot_spec : ℕ
  deriving DecidableEq, Repr

/-- The file produced by a save: name, dpi and the rasterized figure. -/
structure SavedFile where
  fname : String
  dpi : ℚ
  figure : Figure
  deriving DecidableEq, Repr

/-- External matplotlib, modelled: FigureCanvasAgg(figure) immediately
dereferences its figure argument (figure.set_canvas(self)), so
constructing a canvas from None fails with AttributeError; from a real
figure it succeeds, and the canvas is observationally its figure. -/
def FigureCanvasAgg (figure : Option Figure) : Except PyError Figure :=
  match figure with
  | none => .error (.attributeError "set_canvas")
  | some fig => .ok fig

/-- External matplotlib, modelled: canvas.print_figure(fname, dpi)
rasterizes the canvas's figure to the named file. -/
def print_figure (canvas : Figure) (fname : String) (dpi : ℚ) : SavedFile :=
  { fname := fname, dpi := dpi, figure := canvas }

/-- Embedding of the instance state of class EasyPlotter of
pysciplottk/easyplotter.py after construction. -/
structure EasyPlotter where
  output_format : String
  output_size : String
  output_fname : String
  flag : String
  figure : Option Figure
  formatting : Formatting
  size : Sizes

/-- Embedding of the body of EasyPlotter.__init__ after the tuple
unpacking of the format spec: resolve the formatting class, resolve the
size class, apply the formatting's global parameters to the process-wide
configuration, and produce the constructed instance together with the
updated configuration; any raised error propagates. -/
def initAfterSplit (output_fname output_format output_size flag : String)
    (rc : RcParams) : Except PyError (EasyPlotter × RcParams) :=
  match get_formatting_class output_format with
  | .error e => .error e
  | .ok formatting =>
    match get_size_class output_size with
    | .error e => .error e
    | .ok size =>
      match formatting.set_matplotlib_global_parameters size rc with
      | .error e => .error e
      | .ok rc2 =>
        .ok ({ output_format := output_format, output_size := output_size,
               output_fname := output_fname, flag := flag, figure := none,
               formatting := formatting, size := size }, rc2)

/-- Embedding of EasyPlotter.__init__: split the format spec on commas
and unpack into exactly two names (ValueError otherwise), then resolve
and apply as in initAfterSplit.  The incoming rc is the process-wide
configuration before construction. -/
def EasyPlotter.init (output_fname output_formatting flag : String)
    (rc : RcParams) : Except PyError (EasyPlotter × RcParams) :=
  match unpack2 (pySplit output_formatting ',') with
  | .error e => .error e
  | .ok (output_format, output_size) =>
    initAfterSplit output_fname output_format output_size flag rc

/-- Embedding of EasyPlotter.from_argv: the four length-guarded branches
of the source bind output_fname, output_formatting and flag from argv and
the defaults; for any other argv length no branch binds them and the
final constructor call raises UnboundLocalError (a NameError) on
output_fname, its first unbound argument. -/
def EasyPlotter.from_argv (argv : List String)
    (default_formatting default_type default_flag : String)
    (rc : RcParams) : Except PyError (EasyPlotter × RcParams) :=
  match argv with
  | [_, output_fname, output_formatting, flag] =>
    EasyPlotter.init output_fname output_formatting flag rc
  | [_, output_fname, output_formatting] =>
    EasyPlotter.init output_fname output_formatting default_flag rc
  | [_, output_fname] =>
    EasyPlotter.init output_fname default_formatting default_flag rc
  | [prog] =>
    EasyPlotter.init (prog ++ "." ++ default_type) default_formatting default_flag rc
  | _ => .error (.nameError "output_fname")

/-- Module-level names bound in pysciplottk/easyplotter.py (its imports
and the class it defines): the global scope against which a free name in
a method body is resolved. -/
def moduleGlobals : List String :=
  ["Axes", "EasyPlotter", "Figure", "FigureCanvasAgg", "artist",
   "get_formatting_class", "get_size_class", "sys"]

/-- Python name resolution for a name read inside a function body: local
scope first, then the module globals; NameError when neither binds it.
The resolved value is represented by the name itself, which is enough
here because the only name this model is used on never resolves. -/
def resolveName (locals : List String) (n : String) : Except PyError String :=
  if n ∈ locals then .ok n
  else if n ∈ moduleGlobals then .ok n
  else .error (.nameError n)

/-- Embedding of EasyPlotter.set_font_size: the body first evaluates the
free name output_formatting (not a parameter, not assigned in the body,
not a module global), which raises NameError; had it resolved, the
branches would call the nonexistent attributes
set_matplotlib_global_latex_parameters /
set_matplotlib_global_matlab_parameters, raising AttributeError. -/
def EasyPlotter.set_font_size (p : EasyPlotter) (fontsize : ℚ) :
    Except PyError EasyPlotter :=
  match resolveName ["self", "fontsize"] "output_formatting" with
  | .error e => .error e
  | .ok v =>
    if v = "latex" then .error (.attributeError "set_matplotlib_global_latex_parameters")
    else if v = "matlab" then .error (.attributeError "set_matplotlib_global_matlab_parameters")
    else .ok p

/-- Embedding of EasyPlotter.normal_figure: width from the size profile,
height from the argument or the profile default; the new figure replaces
self.figure and is returned. -/
def EasyPlotter.normal_figure (p : EasyPlotter) (height : Option ℚ) :
    EasyPlotter × Figure :=
  let width := p.size.normal_figure_width
  let height := height.getD p.size.normal_figure_default_height
  let fig : Figure := { width := width, height := height }
  ({ p with figure := some fig }, fig)

/-- Embedding of EasyPlotter.normal_figure_single_ax: create a normal
figure, add one subplot spanning it (spec 111), return the axes. -/
def EasyPlotter.normal_figure_single_ax (p : EasyPlotter) (height : Option ℚ) :
    EasyPlotter × Axes :=
  let r := p.normal_figure height
  (r.1, { figure := r.2, subplot_spec := 111 })

/-- Embedding of EasyPlotter.wide_figure: as normal_figure with the wide
width and wide default height. -/
def EasyPlotter.wide_figure (p : EasyPlotter) (height : Option ℚ) :
    EasyPlotter × Figure :=
  let width := p.size.wide_figure_width
  let height := height.getD p.size.wide_figure_default_height
  let fig : Figure := { width := width, height := height }
  ({ p with figure := some fig }, fig)

/-- Embedding of EasyPlotter.save: build a canvas from self.figure (the
external constructor fails when it is None) and print it to
self.output_fname at the given dpi.  The body only reads the instance,
so the returned state is the unchanged instance. -/
def EasyPlotter.save (p : EasyPlotter) (dpi : ℚ) :
    Except PyError (EasyPlotter × SavedFile) :=
  match FigureCanvasAgg p.figure with
  | .error e => .error e
  | .ok canvas => .ok (p, print_figure canvas p.output_fname dpi)

/-- Test for the error the spec calls FormatError: in the source it is
the ValueError raised by the tuple unpacking of the format spec. -/
def isFormatError {α : Type} : Except PyError α → Bool
  | .error (.valueError _) => true
  | _ => false

/-- An arbitrary initial process-wide configuration, used to instantiate
theorems at concrete inputs (matplotlib-like defaults; no theorem depends
on these particular values). -/
def rcDefault : RcParams :=
  { lines_linewidth := 1, patch_linewidth := 1, axes_linewidth := 4/5,
    axes_titlesize := 12, grid_linewidth := 4/5, font_size := 10,
    font_family := "sans-serif", xtick_major_width := 4/5,
    xtick_minor_width := 3/5, text_usetex := false,
    font_serif := ["DejaVu Serif"], font_monospace := ["DejaVu Sans Mono"] }

/-- The facade produced by constructing with ("x.pdf", "latex,revtex",
"default"). -/
def pLR : EasyPlotter :=
  { output_format := "latex", output_size := "revtex",
    output_fname := "x.pdf", flag := "default", figure := none,
    formatting := FormattingLatex, size := SizesRevtex }

/-- The configuration after constructing pLR from rcDefault. -/
def rcLR : RcParams :=
  { rcDefault with
    lines_linewidth := 0.4, patch_linewidth := 0.4, axes_linewidth := 0.4,
    axes_titlesize := 9, grid_linewidth := 0.4, font_size := 8,
    font_family := "serif", xtick_major_width := 0.4,
    xtick_minor_width := 0.4, text_usetex := true,
    font_serif := ["Computer Modern Roman"],
    font_monospace := ["Computer Modern Typewriter"] }

/-- The facade produced by constructing with ("x.pdf", "matlab,revtex",
"default"). -/
def pMR : EasyPlotter :=
  { output_format := "matlab", output_size := "revtex",
    output_fname := "x.pdf", flag := "default", figure := none,
    formatting := FormattingMatlab, size := SizesRevtex }

/-- The configuration after constructing pMR from rcDefault. -/
def rcMR : RcParams :=
  { rcDefault with
    lines_linewidth := 0.4, patch_linewidth := 0.4, axes_linewidth := 0.4,
    axes_titlesize := 8, grid_linewidth := 0.4, font_size := 7 }

/-- The facade produced by constructing with ("x.pdf", "matlab,a0poster",
"default"). -/
def pMA : EasyPlotter :=
  { output_format := "matlab", output_size := "a0poster",
    output_fname := "x.pdf", flag := "default", figure := none,
    formatting := FormattingMatlab, size := SizesA0poster }

/-- The configuration after constructing pMA from rcDefault. -/
def rcMA : RcParams :=
  { rcDefault with
    lines_linewidth := 1, patch_linewidth := 1, axes_linewidth := 1,
    axes_titlesize := 16, grid_linewidth := 1, font_size := 14 }

/-- The figure created by pLR.normal_figure with default height. -/
def figLR : Figure := { width := 243/72, height := 2 }

/-- The facade pLR after one normal_figure call. -/
def pLRfig : EasyPlotter := { pLR with figure := some figLR }

lemma gfc_not_found (s : String) (h1 : s ≠ "latex") (h2 : s ≠ "matlab") :
    get_formatting_class s =
      .error (.keyError ("format_name " ++ s ++ " not found")) := by
  simp only [get_formatting_class, formattingRegistry, scanFormatting]
  rw [if_neg (fun h => h1 h.symm), if_neg (fun h => h2 h.symm)]

lemma gsc_not_found (s : String) (h1 : s ≠ "revtex") (h2 : s ≠ "a0poster") :
    get_size_class s =
      .error (.keyError ("size_name " ++ s ++ " not found")) := by
  simp only [get_size_class, sizeRegistry, scanSizes]
  rw [if_neg (fun h => h2 h.symm), if_neg (fun h => h1 h.symm)]

lemma ias_latex_revtex (fname flag : String) (rc : RcParams) :
    initAfterSplit fname "latex" "revtex" flag rc =
      .ok ({ output_format := "latex", output_size := "revtex",
             output_fname := fname, flag := flag, figure := none,
             formatting := FormattingLatex, size := SizesRevtex },
           { rc with
             lines_linewidth := 0.4, patch_linewidth := 0.4,
             axes_linewidth := 0.4, axes_titlesize := 9,
             grid_linewidth := 0.4, font_size := 8, font_family := "serif",
             xtick_major_width := 0.4, xtick_minor_width := 0.4,
             text_usetex := true, font_serif := ["Computer Modern Roman"],
             font_monospace := ["Computer Modern Typewriter"] }) := rfl

lemma ias_latex_a0poster (fname flag : String) (rc : RcParams) :
    initAfterSplit fname "latex" "a0poster" flag rc =
      .ok ({ output_format := "latex", output_size := "a0poster",
             output_fname := fname, flag := flag, figure := none,
             formatting := FormattingLatex, size := SizesA0poster },
           { rc with
             lines_linewidth := 1, patch_linewidth := 1,
             axes_linewidth := 1, axes_titlesize := 18,
             grid_linewidth := 1, font_size := 16, font_family := "serif",
             xtick_major_width := 1, xtick_minor_width := 1,
             text_usetex := true, font_serif := ["Computer Modern Roman"],
             font_monospace := ["Computer Modern Typewriter"] }) := rfl

lemma ias_matlab_revtex (fname flag : String) (rc : RcParams) :
    initAfterSplit fname "matlab" "revtex" flag rc =
      .ok ({ output_format := "matlab", output_size := "revtex",
             output_fname := fname, flag := flag, figure := none,
             formatting := FormattingMatlab, size := SizesRevtex },
           { rc with
             lines_linewidth := 0.4, patch_linewidth := 0.4,
             axes_linewidth := 0.4, axes_titlesize := 8,
             grid_linewidth := 0.4, font_size := 7 }) := rfl

lemma ias_matlab_a0poster (fname flag : String) (rc : RcParams) :
    initAfterSplit fname "matlab" "a0poster" flag rc =
      .ok ({ output_format := "matlab", output_size := "a0poster",
             output_fname := fname, flag := flag, figure := none,
             formatting := FormattingMatlab, size := SizesA0poster },
           { rc with
             lines_linewidth := 1, patch_linewidth := 1,
             axes_linewidth := 1, axes_titlesize := 16,
             grid_linewidth := 1, font_size := 14 }) := rfl

lemma ias_bad_style (fname style size flag : String) (rc : RcParams)
    (h1 : style ≠ "latex") (h2 : style ≠ "matlab") :
    initAfterSplit fname style size flag rc =
      .error (.keyError ("format_name " ++ style ++ " not found")) := by
  unfold initAfterSplit
  rw [gfc_not_found style h1 h2]

lemma ias_style_bad_size (fname style size flag : String) (rc : RcParams)
    (hstyle : style = "latex" ∨ style = "matlab")
    (h1 : size ≠ "revtex") (h2 : size ≠ "a0poster") :
    initAfterSplit fname style size flag rc =
      .error (.keyError ("size_name " ++ size ++ " not found")) := by
  rcases hstyle with rfl | rfl <;>
    (unfold initAfterSplit; rw [gsc_not_found size h1 h2]; rfl)

lemma ias_no_valueError (fname style size flag : String) (rc : RcParams) :
    isFormatError (initAfterSplit fname style size flag rc) = false := by
  by_cases h1 : style = "latex"
  · subst h1
    by_cases h2 : size = "revtex"
    · subst h2; rw [ias_latex_revtex]; rfl
    · by_cases h3 : size = "a0poster"
      · subst h3; rw [ias_latex_a0poster]; rfl
      · rw [ias_style_bad_size fname "latex" size flag rc (Or.inl rfl) h2 h3]; rfl
  · by_cases h1m : style = "matlab"
    · subst h1m
      by_cases h2 : size = "revtex"
      · subst h2; rw [ias_matlab_revtex]; rfl
      · by_cases h3 : size = "a0poster"
        · subst h3; rw [ias_matlab_a0poster]; rfl
        · rw [ias_style_bad_size fname "matlab" size flag rc (Or.inr rfl) h2 h3]; rfl
    · rw [ias_bad_style fname style size flag rc h1 h1m]; rfl

lemma ias_ok_fields {fname style size flag : String} {rc : RcParams}
    {p : EasyPlotter} {rc2 : RcParams}
    (h : initAfterSplit fname style size flag rc = .ok (p, rc2)) :
    p.output_format = style ∧ p.output_size = size ∧
    p.output_fname = fname ∧ p.flag = flag ∧ p.figure = none := by
  unfold initAfterSplit at h
  split at h
  · exact Except.noConfusion h
  · split at h
    · exact Except.noConfusion h
    · split at h
      · exact Except.noConfusion h
      · injection h with h1
        injection h1 with hp hrc
        subst hp
        exact ⟨rfl, rfl, rfl, rfl, rfl⟩

lemma init_split (fname fmt flag s1 s2 : String) (rc : RcParams)
    (hs : pySplit fmt ',' = [s1, s2]) :
    EasyPlotter.init fname fmt flag rc = initAfterSplit fname s1 s2 flag rc := by
  unfold EasyPlotter.init
  rw [hs]
  rfl

lemma init_ok_fields {fname fmt flag : String} {rc : RcParams}
    {p : EasyPlotter} {rc2 : RcParams}
    (h : EasyPlotter.init fname fmt flag rc = .ok (p, rc2)) :
    p.output_fname = fname ∧ p.flag = flag ∧ p.figure = none := by
  unfold EasyPlotter.init at h
  split at h
  · exact Except.noConfusion h
  · obtain ⟨-, -, h3, h4, h5⟩ := ias_ok_fields h
    exact ⟨h3, h4, h5⟩

lemma init_latex_revtex (fname flag : String) (rc : RcParams) :
    EasyPlotter.init fname "latex,revtex" flag rc =
      initAfterSplit fname "latex" "revtex" flag rc :=
  init_split fname "latex,revtex" flag "latex" "revtex" rc (by decide)

lemma init_matlab_revtex (fname flag : String) (rc : RcParams) :
    EasyPlotter.init fname "matlab,revtex" flag rc =
      initAfterSplit fname "matlab" "revtex" flag rc :=
  init_split fname "matlab,revtex" flag "matlab" "revtex" rc (by decide)

lemma init_matlab_a0poster (fname flag : String) (rc : RcParams) :
    EasyPlotter.init fname "matlab,a0poster" flag rc =
      initAfterSplit fname "matlab" "a0poster" flag rc :=
  init_split fname "matlab,a0poster" flag "matlab" "a0poster" rc (by decide)

/-- Claim C4: size-registry lookup of "revtex" returns the profile with
normal width 243/72, normal default height 2, wide width 482/72, wide
default height 4, fontsize dict matlab 7 / latex 8, titlesize dict
matlab 8 / latex 9, linewidth dict matlab 0.4 / latex 0.4; lookup of
"a0poster" returns normal width 700/72, normal default height 500/72,
wide width 1400/72, wide default height 500/72, fontsize matlab 14 /
latex 16, titlesize matlab 16 / latex 18, linewidth matlab 1 / latex 1;
and all four width/height fields of both profiles are positive. -/
theorem C4_size_registry_values :
    get_size_class "revtex" = .ok SizesRevtex ∧
    SizesRevtex.normal_figure_width = 243/72 ∧
    SizesRevtex.normal_figure_default_height = 2 ∧
    SizesRevtex.wide_figure_width = 482/72 ∧
    SizesRevtex.wide_figure_default_height = 4 ∧
    SizesRevtex.fontsize = [("matlab", 7), ("latex", 8)] ∧
    SizesRevtex.titlesize = [("matlab", 8), ("latex", 9)] ∧
    SizesRevtex.linewidth = [("matlab", 0.4), ("latex", 0.4)] ∧
    get_size_class "a0poster" = .ok SizesA0poster ∧
    SizesA0poster.normal_figure_width = 700/72 ∧
    SizesA0poster.normal_figure_default_height = 500/72 ∧
    SizesA0poster.wide_figure_width = 1400/72 ∧
    SizesA0poster.wide_figure_default_height = 500/72 ∧
    SizesA0poster.fontsize = [("matlab", 14), ("latex", 16)] ∧
    SizesA0poster.titlesize = [("matlab", 16), ("latex", 18)] ∧
    SizesA0poster.linewidth = [("matlab", 1), ("latex", 1)] ∧
    0 < SizesRevtex.normal_figure_width ∧
    0 < SizesRevtex.normal_figure_default_height ∧
    0 < SizesRevtex.wide_figure_width ∧
    0 < SizesRevtex.wide_figure_default_height ∧
    0 < SizesA0poster.normal_figure_width ∧
    0 < SizesA0poster.normal_figure_default_height ∧
    0 < SizesA0poster.wide_figure_width ∧
    0 < SizesA0poster.wide_figure_default_height := by
  refine ⟨rfl, rfl, rfl, rfl, rfl, rfl, rfl, rfl, rfl, rfl, rfl, rfl, rfl,
    rfl, rfl, rfl, ?_, ?_, ?_, ?_, ?_, ?_, ?_, ?_⟩ <;>
    norm_num [SizesRevtex, SizesA0poster]

/-- Claim C7 (code bug): with the source's default default_formatting
value "latex" (which has no comma), EasyPlotter.from_argv with zero or
one positional argument after the program name delegates a one-token
format spec to the constructor, whose unpacking raises ValueError
instead of building the facade the spec describes; with an explicit
two-token format spec the arity dispatch works as the spec says.  The
second conjunct is the class docstring's own usage example, which
crashes. -/
theorem C7_from_argv_default_crashes :
    EasyPlotter.from_argv ["prog"] "latex" "png" "default" rcDefault =
      .error (.valueError "not enough values to unpack") ∧
    EasyPlotter.from_argv ["plot.py", "output.pdf"] "latex" "pdf" "default" rcDefault =
      .error (.valueError "not enough values to unpack") ∧
    (EasyPlotter.from_argv ["prog", "out.pdf", "matlab,revtex", "myflag"]
        "latex" "pdf" "default" rcDefault).map
      (fun pr => (pr.1.output_fname, pr.1.output_format, pr.1.output_size, pr.1.flag)) =
      .ok ("out.pdf", "matlab", "revtex", "myflag") ∧
    (EasyPlotter.from_argv ["prog", "out.pdf", "latex,revtex"]
        "latex" "pdf" "default" rcDefault).map
      (fun pr => (pr.1.output_fname, pr.1.flag)) =
      .ok ("out.pdf", "default") :=
  ⟨rfl, rfl, rfl, rfl⟩

/-- Claim C9: for every constructed facade and every fontsize argument,
set_font_size fails with NameError on the unbound name
output_formatting before doing anything else: the branch test reads a
free name that is neither a parameter nor a module global, so no call
completes. -/
theorem C9_set_font_size_name_error (p : EasyPlotter) (fontsize : ℚ) :
    p.set_font_size fontsize = .error (.nameError "output_formatting") := rfl

/-- Claim C10: for every argument vector of length 0 or at least 5, no
arity branch of from_argv binds output_fname (or the format spec or
flag), and the delegated constructor call raises an unhandled
undefined-variable error (UnboundLocalError on output_fname) instead of
applying defaults or a dedicated error. -/
theorem C10_from_argv_arity_error (argv : List String)
    (default_formatting default_type default_flag : String) (rc : RcParams)
    (h : argv.length = 0 ∨ 5 ≤ argv.length) :
    EasyPlotter.from_argv argv default_formatting default_type default_flag rc =
      .error (.nameError "output_fname") := by
  rcases argv with _ | ⟨a, _ | ⟨b, _ | ⟨c, _ | ⟨e, _ | ⟨f, rest⟩⟩⟩⟩⟩
  · rfl
  · simp at h
  · simp at h
  · simp at h
  · simp at h
  · rfl

/-- Witness for C10 at concrete inputs: the empty vector and a
five-element vector both yield the unbound-variable error. -/
theorem C10_witness :
    EasyPlotter.from_argv [] "latex" "pdf" "default" rcDefault =
      .error (.nameError "output_fname") ∧
    EasyPlotter.from_argv ["a", "b", "c", "e", "f"] "latex" "pdf" "default" rcDefault =
      .error (.nameError "output_fname") :=
  ⟨C10_from_argv_arity_error [] "latex" "pdf" "default" rcDefault (Or.inl rfl),
   C10_from_argv_arity_error ["a", "b", "c", "e", "f"] "latex" "pdf" "default"
     rcDefault (Or.inr (by norm_num))⟩

/-- Claim C1, counterexample: on the concretely constructed facade
("x.pdf", "latex,revtex", "default") with no figure-creation call, save
does not fail with the dedicated NoFigureError the claim asserts: it
fails with the external library's attribute error from handing the absent
figure (None) to the canvas constructor, and the source defines and
raises no NoFigureError anywhere. -/
theorem C1_counterexample :
    EasyPlotter.init "x.pdf" "latex,revtex" "default" rcDefault = .ok (pLR, rcLR) ∧
    pLR.save 300 = .error (.attributeError "set_canvas") ∧
    (Except.error (PyError.attributeError "set_canvas") :
        Except PyError (EasyPlotter × SavedFile)) ≠
      Except.error PyError.noFigureError := by
  refine ⟨rfl, rfl, by simp⟩

/-- Claim C1 (amended): for every constructed facade on which no
figure-creation helper has been called, save fails — but with the
external library's attribute error from the absent figure, not with a
dedicated NoFigureError, which the code never checks for, defines or
raises; after a figure-creation call (normal_figure, wide_figure or
normal_figure_single_ax), save succeeds, delegating the stored figure,
so in particular it does not raise NoFigureError. -/
theorem C1_save_behavior (fname fmt flag : String) (rc0 rc : RcParams)
    (p : EasyPlotter)
    (h : EasyPlotter.init fname fmt flag rc0 = .ok (p, rc))
    (d : ℚ) (hgt : Option ℚ) :
    p.save d = .error (.attributeError "set_canvas") ∧
    p.save d ≠ .error .noFigureError ∧
    (p.normal_figure hgt).1.save d =
      .ok ((p.normal_figure hgt).1,
           { fname := p.output_fname, dpi := d, figure := (p.normal_figure hgt).2 }) ∧
    (p.wide_figure hgt).1.save d =
      .ok ((p.wide_figure hgt).1,
           { fname := p.output_fname, dpi := d, figure := (p.wide_figure hgt).2 }) ∧
    (p.normal_figure_single_ax hgt).1.save d =
      .ok ((p.normal_figure_single_ax hgt).1,
           { fname := p.output_fname, dpi := d,
             figure := (p.normal_figure_single_ax hgt).2.figure }) := by
  obtain ⟨-, -, hfig⟩ := init_ok_fields h
  have h1 : p.save d = .error (.attributeError "set_canvas") := by
    unfold EasyPlotter.save
    rw [hfig]
    rfl
  exact ⟨h1, by rw [h1]; simp, rfl, rfl, rfl⟩

/-- Witness for C1 at the concrete facade pLR: save fails with the
attribute error before any figure call, and succeeds after one. -/
theorem C1_witness :
    pLR.save 300 = .error (.attributeError "set_canvas") ∧
    (pLR.normal_figure none).1.save 300 =
      .ok ((pLR.normal_figure none).1,
           { fname := "x.pdf", dpi := 300, figure := { width := 243/72, height := 2 } }) := by
  have h := C1_save_behavior "x.pdf" "latex,revtex" "default" rcDefault rcLR pLR
    (by rfl) 300 none
  exact ⟨h.1, h.2.2.1⟩

/-- Claim C2: construction fails with the error the spec calls
FormatError (the ValueError of the tuple unpacking) exactly when the
format spec does not split on commas into two tokens; and when it splits
into exactly two tokens, any successfully constructed facade carries the
first token as style name and the second as size name. -/
theorem C2_format_spec_splitting (fname fmt flag : String) (rc : RcParams) :
    (isFormatError (EasyPlotter.init fname fmt flag rc) = true ↔
      (pySplit fmt ',').length ≠ 2) ∧
    (∀ s1 s2 p rc2, pySplit fmt ',' = [s1, s2] →
      EasyPlotter.init fname fmt flag rc = .ok (p, rc2) →
      p.output_format = s1 ∧ p.output_size = s2) := by
  constructor
  · rcases hl : pySplit fmt ',' with _ | ⟨a, _ | ⟨b, _ | ⟨c, t⟩⟩⟩
    · unfold EasyPlotter.init
      rw [hl]
      simp [unpack2, isFormatError]
    · unfold EasyPlotter.init
      rw [hl]
      simp [unpack2, isFormatError]
    · rw [init_split fname fmt flag a b rc hl, ias_no_valueError]
      simp
    · unfold EasyPlotter.init
      rw [hl]
      simp [unpack2, isFormatError]
  · intro s1 s2 p rc2 hsp h
    rw [init_split fname fmt flag s1 s2 rc hsp] at h
    exact ⟨(ias_ok_fields h).1, (ias_ok_fields h).2.1⟩

/-- Witness for C2 at concrete inputs: a one-token spec is a
FormatError, and with the two-token spec "latex,revtex" the constructed
facade carries style "latex" and size "revtex". -/
theorem C2_witness :
    isFormatError (EasyPlotter.init "x.pdf" "latex" "default" rcDefault) = true ∧
    pLR.output_format = "latex" ∧ pLR.output_size = "revtex" :=
  ⟨(C2_format_spec_splitting "x.pdf" "latex" "default" rcDefault).1.mpr (by decide),
   (C2_format_spec_splitting "x.pdf" "latex,revtex" "default" rcDefault).2
     "latex" "revtex" pLR rcLR (by decide) (by rfl)⟩

/-- Claim C3: for a format spec that splits into exactly the two tokens
style and size, construction succeeds if and only if the style resolves
in the style registry and the size resolves in the size registry; when
the style is unrecognized construction fails with the style lookup's
KeyError (the spec's NotFoundError), when the style resolves but the
size does not it fails with the size lookup's KeyError; and the
registered names are exactly the styles latex and matlab and the sizes
a0poster and revtex. -/
theorem C3_registry_resolution (fname fmt style size flag : String)
    (rc : RcParams) (hs : pySplit fmt ',' = [style, size]) :
    ((∃ p rc2, EasyPlotter.init fname fmt flag rc = .ok (p, rc2)) ↔
      ((style = "latex" ∨ style = "matlab") ∧
       (size = "revtex" ∨ size = "a0poster"))) ∧
    ((style ≠ "latex" ∧ style ≠ "matlab") →
      EasyPlotter.init fname fmt flag rc =
        .error (.keyError ("format_name " ++ style ++ " not found"))) ∧
    ((style = "latex" ∨ style = "matlab") →
      (size ≠ "revtex" ∧ size ≠ "a0poster") →
      EasyPlotter.init fname fmt flag rc =
        .error (.keyError ("size_name " ++ size ++ " not found"))) ∧
    formattingRegistry.map (fun f => f.format_name) = ["latex", "matlab"] ∧
    sizeRegistry.map (fun s => s.size_name) = ["a0poster", "revtex"] := by
  rw [init_split fname fmt flag style size rc hs]
  refine ⟨⟨?_, ?_⟩, ?_, ?_, rfl, rfl⟩
  · rintro ⟨p, rc2, hok⟩
    by_cases h1 : style = "latex"
    · refine ⟨Or.inl h1, ?_⟩
      subst h1
      by_cases h2 : size = "revtex"
      · exact Or.inl h2
      · by_cases h3 : size = "a0poster"
        · exact Or.inr h3
        · rw [ias_style_bad_size fname "latex" size flag rc (Or.inl rfl) h2 h3] at hok
          exact Except.noConfusion hok
    · by_cases h1m : style = "matlab"
      · refine ⟨Or.inr h1m, ?_⟩
        subst h1m
        by_cases h2 : size = "revtex"
        · exact Or.inl h2
        · by_cases h3 : size = "a0poster"
          · exact Or.inr h3
          · rw [ias_style_bad_size fname "matlab" size flag rc (Or.inr rfl) h2 h3] at hok
            exact Except.noConfusion hok
      · rw [ias_bad_style fname style size flag rc h1 h1m] at hok
        exact Except.noConfusion hok
  · rintro ⟨hf, hsz⟩
    rcases hf with rfl | rfl <;> rcases hsz with rfl | rfl
    · exact ⟨_, _, ias_latex_revtex fname flag rc⟩
    · exact ⟨_, _, ias_latex_a0poster fname flag rc⟩
    · exact ⟨_, _, ias_matlab_revtex fname flag rc⟩
    · exact ⟨_, _, ias_matlab_a0poster fname flag rc⟩
  · intro hbad
    exact ias_bad_style fname style size flag rc hbad.1 hbad.2
  · intro hstyle hbad
    exact ias_style_bad_size fname style size flag rc hstyle hbad.1 hbad.2

/-- Witness for C3 at concrete inputs: "bogus,revtex" fails with the
style lookup's KeyError, "latex,bogus" fails with the size lookup's
KeyError, and "latex,revtex" constructs successfully. -/
theorem C3_witness :
    EasyPlotter.init "x.pdf" "bogus,revtex" "default" rcDefault =
      .error (.keyError "format_name bogus not found") ∧
    EasyPlotter.init "x.pdf" "latex,bogus" "default" rcDefault =
      .error (.keyError "size_name bogus not found") ∧
    (∃ p rc2, EasyPlotter.init "x.pdf" "latex,revtex" "default" rcDefault =
      .ok (p, rc2)) :=
  ⟨(C3_registry_resolution "x.pdf" "bogus,revtex" "bogus" "revtex" "default"
      rcDefault (by decide)).2.1 ⟨by decide, by decide⟩,
   (C3_registry_resolution "x.pdf" "latex,bogus" "latex" "bogus" "default"
      rcDefault (by decide)).2.2.1 (Or.inl rfl) ⟨by decide, by decide⟩,
   (C3_registry_resolution "x.pdf" "latex,revtex" "latex" "revtex" "default"
      rcDefault (by decide)).1.mpr ⟨Or.inl rfl, Or.inl rfl⟩⟩

/-- Claim C5: for every constructed facade, normal_figure returns a
figure whose width is the active size profile's normal width and whose
height is the given height when supplied, else the profile's normal
default height, storing it as the current figure; wide_figure behaves
the same with the wide fields; in particular after constructing with
"latex,revtex" a default normal_figure has width 243/72 and height 2,
and after constructing with "matlab,a0poster" wide_figure with height 10
has width 1400/72 and height 10. -/
theorem C5_figure_dimensions (p : EasyPlotter) (hgt : Option ℚ) :
    ((p.normal_figure hgt).2.width = p.size.normal_figure_width ∧
     (p.normal_figure hgt).2.height = hgt.getD p.size.normal_figure_default_height ∧
     (p.normal_figure hgt).1.figure = some (p.normal_figure hgt).2) ∧
    ((p.wide_figure hgt).2.width = p.size.wide_figure_width ∧
     (p.wide_figure hgt).2.height = hgt.getD p.size.wide_figure_default_height ∧
     (p.wide_figure hgt).1.figure = some (p.wide_figure hgt).2) ∧
    (∀ fname flag rc0 q rc,
      EasyPlotter.init fname "latex,revtex" flag rc0 = .ok (q, rc) →
      (q.normal_figure none).2 = { width := 243/72, height := 2 }) ∧
    (∀ fname flag rc0 q rc,
      EasyPlotter.init fname "matlab,a0poster" flag rc0 = .ok (q, rc) →
      (q.wide_figure (some 10)).2 = { width := 1400/72, height := 10 }) := by
  refine ⟨⟨rfl, rfl, rfl⟩, ⟨rfl, rfl, rfl⟩, ?_, ?_⟩
  · intro fname flag rc0 q rc h
    rw [init_latex_revtex, ias_latex_revtex] at h
    injection h with h1
    injection h1 with hp hrc
    subst hp
    rfl
  · intro fname flag rc0 q rc h
    rw [init_matlab_a0poster, ias_matlab_a0poster] at h
    injection h with h1
    injection h1 with hp hrc
    subst hp
    rfl

/-- Witness for C5 at concrete facades: pLR's default normal figure is
243/72 by 2, and pMA's wide figure at height 10 is 1400/72 by 10. -/
theorem C5_witness :
    (pLR.normal_figure none).2 = { width := 243/72, height := 2 } ∧
    (pMA.wide_figure (some 10)).2 = { width := 1400/72, height := 10 } :=
  ⟨(C5_figure_dimensions pLR none).2.2.1 "x.pdf" "default" rcDefault pLR rcLR (by rfl),
   (C5_figure_dimensions pMA (some 10)).2.2.2 "x.pdf" "default" rcDefault pMA rcMA (by rfl)⟩

/-- Claim C6: after constructing with style "matlab" and a registered
size, the axes-title-size global equals the profile's matlab titlesize
(the source's second assignment, overwriting the earlier assignment of
fontsize), the base font size global equals the profile's matlab
fontsize, and the lines, patch, axes-border and grid line-width globals
all equal the profile's matlab linewidth. -/
theorem C6_matlab_globals (fname sizeName flag : String) (rc0 rc : RcParams)
    (p : EasyPlotter)
    (hs : sizeName = "revtex" ∨ sizeName = "a0poster")
    (h : EasyPlotter.init fname ("matlab," ++ sizeName) flag rc0 = .ok (p, rc)) :
    dictGet p.size.titlesize "matlab" = .ok rc.axes_titlesize ∧
    dictGet p.size.fontsize "matlab" = .ok rc.font_size ∧
    dictGet p.size.linewidth "matlab" = .ok rc.lines_linewidth ∧
    rc.patch_linewidth = rc.lines_linewidth ∧
    rc.axes_linewidth = rc.lines_linewidth ∧
    rc.grid_linewidth = rc.lines_linewidth := by
  rcases hs with rfl | rfl
  · rw [show ("matlab," ++ "revtex" : String) = "matlab,revtex" by decide,
      init_matlab_revtex, ias_matlab_revtex] at h
    injection h with h1
    injection h1 with hp hrc
    subst hp
    subst hrc
    exact ⟨rfl, rfl, rfl, rfl, rfl, rfl⟩
  · rw [show ("matlab," ++ "a0poster" : String) = "matlab,a0poster" by decide,
      init_matlab_a0poster, ias_matlab_a0poster] at h
    injection h with h1
    injection h1 with hp hrc
    subst hp
    subst hrc
    exact ⟨rfl, rfl, rfl, rfl, rfl, rfl⟩

/-- Witness for C6 at the concrete construction ("x.pdf",
"matlab,revtex", "default") from rcDefault. -/
theorem C6_witness :
    dictGet pMR.size.titlesize "matlab" = .ok rcMR.axes_titlesize ∧
    dictGet pMR.size.fontsize "matlab" = .ok rcMR.font_size ∧
    dictGet pMR.size.linewidth "matlab" = .ok rcMR.lines_linewidth ∧
    rcMR.patch_linewidth = rcMR.lines_linewidth ∧
    rcMR.axes_linewidth = rcMR.lines_linewidth ∧
    rcMR.grid_linewidth = rcMR.lines_linewidth :=
  C6_matlab_globals "x.pdf" "revtex" "default" rcDefault rcMR pMR
    (Or.inl rfl) (by rfl)

/-- Claim C8: construction stores the flag verbatim (and the output
filename); each figure-creation helper changes only the figure field,
replacing it with the new figure, and leaves the flag, output filename,
style and size fields untouched (a record update of figure alone); save
returns the instance unchanged. -/
theorem C8_frame_conditions (fname fmt flag : String) (rc0 : RcParams)
    (p : EasyPlotter) (hgt : Option ℚ) (d : ℚ) :
    (∀ q rc, EasyPlotter.init fname fmt flag rc0 = .ok (q, rc) →
      q.flag = flag ∧ q.output_fname = fname) ∧
    (p.normal_figure hgt).1 = { p with figure := some (p.normal_figure hgt).2 } ∧
    (p.wide_figure hgt).1 = { p with figure := some (p.wide_figure hgt).2 } ∧
    (p.normal_figure_single_ax hgt).1 =
      { p with figure := some (p.normal_figure_single_ax hgt).2.figure } ∧
    (∀ q sf, p.save d = .ok (q, sf) → q = p) := by
  refine ⟨?_, rfl, rfl, rfl, ?_⟩
  · intro q rc h
    obtain ⟨h1, h2, -⟩ := init_ok_fields h
    exact ⟨h2, h1⟩
  · intro q sf h
    cases hf : p.figure with
    | none =>
      unfold EasyPlotter.save at h
      rw [hf] at h
      exact Except.noConfusion h
    | some fig =>
      unfold EasyPlotter.save at h
      rw [hf] at h
      injection h with h1
      injection h1 with hq hsf
      exact hq.symm

/-- Witness for C8 at concrete inputs: the constructed pLR carries flag
"default" and filename "x.pdf", and saving the facade pLRfig returns the
same facade state. -/
theorem C8_witness :
    pLR.flag = "default" ∧ pLR.output_fname = "x.pdf" ∧ pLRfig = pLRfig := by
  have h := C8_frame_conditions "x.pdf" "latex,revtex" "default" rcDefault
    pLRfig none 300
  obtain ⟨h1, h2⟩ := h.1 pLR rcLR (by rfl)
  exact ⟨h1, h2, h.2.2.2.2 pLRfig (print_figure figLR "x.pdf" 300) (by rfl)⟩

end PySciPlotTK
